import Mathlib

/-!
# Verification of the Cauldron LED firmware core (DARTLEDs.cpp)

Shallow embedding of the command-driven animation scheduler of
`src/DARTLEDs.cpp`: the 3-byte command decoder, the single-slot timer
scheduler, and the pattern generators (fire simulation, running lights,
flashing, broadway, palette and rainbow shows).

Machine integers (`byte`/`uint8_t`) are modelled as `Nat`; wherever the C
code stores into a byte we either truncate with `% 256` (transport reads)
or prove the stored value is `≤ 255` so that no truncation can occur
(heat-buffer arithmetic).  External libraries (FastLED's pixel driver and
color ramps, the BLE stack, the `Timer` event library) are modelled only at
their interface, exactly as the firmware uses them.
-/

set_option maxRecDepth 10000

namespace Cauldron

/-- Pointwise update of a function model of an in-memory array. -/
def upd {α : Type} (f : Nat → α) (i : Nat) (v : α) : Nat → α :=
  fun j => if j = i then v else f j

/-- `#define NUM_LEDS 100` -/
def NUM_LEDS : Nat := 100

/-- `#define COOLING 55` -/
def COOLING : Nat := 55

/-- `#define SPARKING 120` -/
def SPARKING : Nat := 120

/-- `const int firmwareVersion = 191` -/
def firmwareVersion : Nat := 191

/-- FastLED's `CRGB`: one 8-bit channel per color. -/
structure CRGB where
  r : Nat
  g : Nat
  b : Nat
deriving DecidableEq, Repr

/-- `CRGB::Black` -/
def black : CRGB := ⟨0, 0, 0⟩

/-! ## Fire2012 heat arithmetic (FastLED math, as used by the firmware)

`random8()` draws one raw byte from the PRNG.  The firmware's randomness is
modelled by an injected draw function `d : Nat → Nat` giving the raw byte
of the n-th `random8` call of a tick (reduced `% 256`); quantifying over
all `d` covers every possible randomness source. -/

/-- FastLED `qsub8`: saturating byte subtraction (Nat subtraction already
saturates at 0). -/
def qsub8 (a b : Nat) : Nat := a - b

/-- FastLED `qadd8`: saturating byte addition, clamped at 255. -/
def qadd8 (a b : Nat) : Nat := min (a + b) 255

/-- `random8()`: a raw byte draw. -/
def rand8 (x : Nat) : Nat := x % 256

/-- `random8(lim)`: FastLED scales a raw byte into `[0, lim)`. -/
def rand8lim (x lim : Nat) : Nat := rand8 x * lim / 256

/-- `random8(lo, hi)`: a draw in `[lo, hi)`. -/
def rand8range (x lo hi : Nat) : Nat := lo + rand8lim x (hi - lo)

/-- Fire2012 step 1: `heat[i] = qsub8(heat[i], random8(0, COOLING*10/NUM_LEDS + 2))`.
Each loop iteration reads and writes only cell `i`, so the loop is a map.
The n-th `random8` call of the tick is the one for cell `n`. -/
def coolStep (d : Nat → Nat) (h : Nat → Nat) : Nat → Nat :=
  fun i =>
    if i < NUM_LEDS then qsub8 (h i) (rand8range (d i) 0 (COOLING * 10 / NUM_LEDS + 2))
    else h i

/-- Fire2012 step 2, the descending diffusion loop
`for (k = NUM_LEDS-1; k >= 2; k--) heat[k] = (heat[k-1] + heat[k-2] + heat[k-2]) / 3;`
translated as in-place updates: `diffuseFrom h k` performs the iterations
for indices `k, k-1, ..., 2` on the buffer `h`. -/
def diffuseFrom : (Nat → Nat) → Nat → (Nat → Nat)
  | h, 0 => h
  | h, 1 => h
  | h, k + 2 => diffuseFrom (upd h (k + 2) ((h (k + 1) + h k + h k) / 3)) (k + 1)

/-- Fire2012 step 3:
`if (random8() < SPARKING) { y = random8(7); heat[y] = qadd8(heat[y], random8(160,255)); }`.
Draw 100 is the spark roll, draws 101 and 102 the position and amount. -/
def sparkStep (d : Nat → Nat) (h : Nat → Nat) : Nat → Nat :=
  if rand8 (d 100) < SPARKING then
    upd h (rand8lim (d 101) 7)
      (qadd8 (h (rand8lim (d 101) 7)) (rand8range (d 102) 160 255))
  else h

/-- One `Fire2012` tick's effect on the heat buffer (steps 1-3; step 4 maps
heat to pixel colors through FastLED's external `HeatColor` ramp and is not
part of the heat state). -/
def fireTickHeat (d : Nat → Nat) (h : Nat → Nat) : Nat → Nat :=
  sparkStep d (diffuseFrom (coolStep d h) (NUM_LEDS - 1))

/-- `n` consecutive `Fire2012` ticks; `d t` is the draw function of tick `t`. -/
def fireTicks (d : Nat → Nat → Nat) : Nat → (Nat → Nat) → (Nat → Nat)
  | 0, h => h
  | n + 1, h => fireTicks (fun t => d (t + 1)) n (fireTickHeat (d 0) h)

/-! ## Firmware machine state

All C++ globals of `DARTLEDs.cpp`, the `static` locals of the tick
functions, the two `Timer` objects, and the transport buffers.  The two
PRNGs (`rand()` and FastLED's `random8()`) are injected as streams read at
a cursor, so identical streams reproduce identical runs. -/

/-- A running-light token: `class Runner { uint8_t pos; uint8_t dir; }`. -/
structure Runner where
  pos : Nat
  dir : Nat
deriving DecidableEq, Repr

/-- The tick callbacks that the firmware registers with the timers. -/
inductive TickFn where
  | fire2012
  | lightsFlashing
  | lightsBroadway
  | lightsRunning
  | paletteShow
  | rainbowShow
  | lightShow
deriving DecidableEq, Repr

/-- One periodic job of the external `Timer` library: the id returned by
`every`, the period in milliseconds, and the bound callback. -/
structure TJob where
  id : Nat
  period : Nat
  fn : TickFn
deriving DecidableEq, Repr

structure State where
  leds : Nat → CRGB
  dart1 : CRGB
  dart2 : CRGB
  dart3 : CRGB
  dart4 : CRGB
  dart5 : CRGB
  backGround : CRGB
  setColor : CRGB
  brightness : Nat
  stripBrightness : Nat
  mode : Nat
  numRunners : Nat
  run : Nat → Runner
  clearHeat : Bool
  heat : Nat → Nat
  flashBlink : Bool
  broadwayBlink : Bool
  paletteStartIndex : Nat
  tJobs : List TJob
  tNextId : Nat
  timerID : Nat
  t2Jobs : List TJob
  t2NextId : Nat
  timerID2 : Nat
  rng : Nat → Nat
  rngIdx : Nat
  rng8 : Nat → Nat
  rng8Idx : Nat
  inbox : List Nat
  outbox : List Nat

/-! ### Timer library interface

The external `Timer` event library is modelled as a list of live jobs:
`every` registers a job under a fresh id and returns that id; `stop(id)`
deletes the job with that id and returns a sentinel (0, never allocated)
which the firmware stores back into `timerID`/`timerID2`. -/

/-- `timerID = t.stop(timerID)` -/
def tStop (s : State) : State :=
  { s with tJobs := s.tJobs.filter (fun j => j.id ≠ s.timerID), timerID := 0 }

/-- `timerID = t.every(period, fn, 0)` -/
def tEvery (period : Nat) (fn : TickFn) (s : State) : State :=
  { s with tJobs := ⟨s.tNextId, period, fn⟩ :: s.tJobs,
           timerID := s.tNextId, tNextId := s.tNextId + 1 }

/-- `timerID2 = t2.stop(timerID2)` -/
def t2Stop (s : State) : State :=
  { s with t2Jobs := s.t2Jobs.filter (fun j => j.id ≠ s.timerID2), timerID2 := 0 }

/-- `t2.stop(timerID2);` with the result discarded (as in `stopLightsShow`). -/
def t2StopKeepId (s : State) : State :=
  { s with t2Jobs := s.t2Jobs.filter (fun j => j.id ≠ s.timerID2) }

/-- `timerID2 = t2.every(period, lightShow, 0)` -/
def t2Every (period : Nat) (s : State) : State :=
  { s with t2Jobs := ⟨s.t2NextId, period, TickFn.lightShow⟩ :: s.t2Jobs,
           timerID2 := s.t2NextId, t2NextId := s.t2NextId + 1 }

/-! ### Elementary firmware operations -/

/-- `randomColor()`: one `rand()` draw from the injected stream, then
`setColor` becomes one of the five dart colors, chosen by `rand() % 5`. -/
def randomColor (s : State) : State :=
  let s1 : State := { s with rngIdx := s.rngIdx + 1 }
  match s.rng s.rngIdx % 5 with
  | 0 => { s1 with setColor := s1.dart1 }
  | 1 => { s1 with setColor := s1.dart2 }
  | 2 => { s1 with setColor := s1.dart3 }
  | 3 => { s1 with setColor := s1.dart4 }
  | _ => { s1 with setColor := s1.dart5 }

/-- `setBrightness()`: pushes the `brightness` global into the strip
driver (`FastLED.setBrightness`; the `show()` flush goes to external
hardware). -/
def setBrightnessF (s : State) : State :=
  { s with stripBrightness := s.brightness }

/-- `lightsOn(color)`: every pixel of the strip gets `color`. -/
def lightsOnF (c : CRGB) (s : State) : State :=
  { s with leds := fun p => if p < NUM_LEDS then c else s.leds p }

/-- `allOff()`: every pixel black. -/
def allOffF (s : State) : State :=
  { s with leds := fun p => if p < NUM_LEDS then black else s.leds p }

/-- `lightsOddEven(odd)`: even pixels get `setColor` and odd pixels black
when `odd == 0`, the inverse otherwise (each pixel is written once, so the
loop is a map). -/
def lightsOddEvenF (odd : Nat) (s : State) : State :=
  { s with leds := fun p =>
      if p < NUM_LEDS then
        if p % 2 = 0 then (if odd = 0 then s.setColor else black)
        else (if odd = 0 then black else s.setColor)
      else s.leds p }

/-! ### Tick callbacks -/

/-- Advance one runner by ±1 with wraparound at the buffer ends. -/
def moveRunner (r : Runner) : Runner :=
  if r.dir = 0 then
    (if r.pos = NUM_LEDS - 1 then ⟨0, r.dir⟩ else ⟨r.pos + 1, r.dir⟩)
  else
    (if r.pos = 0 then ⟨NUM_LEDS - 1, r.dir⟩ else ⟨r.pos - 1, r.dir⟩)

/-- Body of the `lightsRunning` loop for runner `i`: blank the runner's
current pixel, advance it, light the new pixel in `setColor`. -/
def runStep (s : State) (i : Nat) : State :=
  { s with
    leds := upd (upd s.leds (s.run i).pos black) (moveRunner (s.run i)).pos s.setColor,
    run := upd s.run i (moveRunner (s.run i)) }

/-- `runLoop s m` processes runners `0, 1, ..., m-1` in order. -/
def runLoop (s : State) : Nat → State
  | 0 => s
  | m + 1 => runStep (runLoop s m) m

/-- `lightsRunning(void*)`: one tick of the running-lights effect. -/
def lightsRunningTick (s : State) : State :=
  runLoop s s.numRunners

/-- `lightsFlashing(void*)`: toggle the static `blink` flag; all pixels
`setColor` in one phase, all black in the other. -/
def lightsFlashingTick (s : State) : State :=
  if s.flashBlink = false then
    lightsOnF s.setColor { s with flashBlink := true }
  else
    allOffF { s with flashBlink := false }

/-- `lightsBroadway(void*)`: toggle the static `blink` flag; even pixels
lit in one phase, odd pixels in the other. -/
def lightsBroadwayTick (s : State) : State :=
  if s.broadwayBlink = false then
    lightsOddEvenF 0 { s with broadwayBlink := true }
  else
    lightsOddEvenF 1 { s with broadwayBlink := false }

/-- `paletteShow(void*)`: advances the static sample index (a byte).  The
palette lookup and pixel writes go through FastLED's external
`ColorFromPalette`, and the palette rotation is driven by the wall clock;
neither is modelled (no claim refers to them). -/
def paletteShowTick (s : State) : State :=
  { s with paletteStartIndex := (s.paletteStartIndex + 1) % 256 }

/-- `rainbowShow(void*)`: draws a generative FastLED pattern and advances
hue/pattern counters on wall-clock cadences (`EVERY_N_MILLISECONDS` /
`EVERY_N_SECONDS`); identity on the modelled state (no claim refers to
its pixels or counters). -/
def rainbowShowTick (s : State) : State := s

/-- `Fire2012(void*)`: zero the heat buffer if `clearHeat` is set, then
run one fire tick (steps 1-3) using FastLED's PRNG stream; step 4 maps
heat to colors through the external `HeatColor` ramp.  The PRNG cursor
advances by the number of `random8` calls made. -/
def fire2012Tick (s : State) : State :=
  { s with
    heat := fireTickHeat (fun n => s.rng8 (s.rng8Idx + n))
      (if s.clearHeat then (fun i => if i < NUM_LEDS then 0 else s.heat i) else s.heat),
    clearHeat := false,
    rng8Idx := s.rng8Idx + 101 +
      (if rand8 (s.rng8 (s.rng8Idx + 100)) < SPARKING then 2 else 0) }

/-! ### Effect start/stop functions -/

/-- `stopTimer()` -/
def stopTimerF (s : State) : State := tStop s

/-- `stopLightsShow()`: `t2.stop(timerID2); allOff();` (the stop result is
discarded, so `timerID2` keeps its stale value). -/
def stopLightsShowF (s : State) : State := allOffF (t2StopKeepId s)

/-- `startFire()` -/
def startFire (s : State) : State :=
  tEvery 100 TickFn.fire2012
    (fire2012Tick { tStop (allOffF (setBrightnessF s)) with clearHeat := true })

/-- The runner-initialization loop of `startLightsRunning`: each runner `i`
gets a random direction (`rand() % 2`) and position `i * (NUM_LEDS / runners)`. -/
def initRunners (runners : Nat) (s : State) : Nat → State
  | 0 => s
  | i + 1 =>
    match initRunners runners s i with
    | s1 =>
      { s1 with
        run := upd s1.run i ⟨i * (NUM_LEDS / runners), s1.rng s1.rngIdx % 2⟩,
        rngIdx := s1.rngIdx + 1 }

/-- `startLightsRunning(dur, runners)` -/
def startLightsRunning (dur runners : Nat) (s : State) : State :=
  tEvery dur TickFn.lightsRunning
    (lightsRunningTick
      { initRunners runners (tStop (allOffF (setBrightnessF (randomColor s)))) runners with
        numRunners := runners })

/-- `startLightsFlashing(dur)` -/
def startLightsFlashing (dur : Nat) (s : State) : State :=
  tEvery dur TickFn.lightsFlashing
    (lightsFlashingTick (tStop (allOffF (setBrightnessF (randomColor s)))))

/-- `startLightsBroadway(dur)` -/
def startLightsBroadway (dur : Nat) (s : State) : State :=
  tEvery dur TickFn.lightsBroadway
    (lightsBroadwayTick (tStop (allOffF (setBrightnessF (randomColor s)))))

/-- `startPaletteShow()` (the palette table and blend mode are external
FastLED data, not modelled). -/
def startPaletteShow (s : State) : State :=
  tEvery 10 TickFn.paletteShow
    (paletteShowTick (tStop (allOffF { s with stripBrightness := 60 })))

/-- `startRainbowShow()` -/
def startRainbowShow (s : State) : State :=
  tEvery 10 TickFn.rainbowShow
    (rainbowShowTick (tStop (allOffF { s with stripBrightness := 96 })))

/-- `lightShow(void*)`: the composite-show sequence tick; draws
`rand() % 7`, rerandomizes the accent color, then starts one effect. -/
def lightShowTick (s : State) : State :=
  let disp := s.rng s.rngIdx
  let s2 := randomColor { s with rngIdx := s.rngIdx + 1 }
  match disp % 7 with
  | 0 => startLightsFlashing 200 s2
  | 1 => startLightsRunning 200 4 s2
  | 2 => startLightsBroadway 200 s2
  | 3 => startPaletteShow s2
  | 4 => startLightsRunning 200 6 s2
  | 5 => startFire s2
  | _ => startRainbowShow s2

/-- `startLightsShow()` -/
def startLightsShow (s : State) : State :=
  t2Every 10000 (lightShowTick (t2Stop (allOffF (setBrightnessF s))))

/-- Dispatch a registered tick callback. -/
def runTick : TickFn → State → State
  | TickFn.fire2012, s => fire2012Tick s
  | TickFn.lightsFlashing, s => lightsFlashingTick s
  | TickFn.lightsBroadway, s => lightsBroadwayTick s
  | TickFn.lightsRunning, s => lightsRunningTick s
  | TickFn.paletteShow, s => paletteShowTick s
  | TickFn.rainbowShow, s => rainbowShowTick s
  | TickFn.lightShow, s => lightShowTick s

/-! ### Command decoder -/

/-- `writeCmd(command, value)`: three `ble_write` byte writes. -/
def writeCmdF (c v : Nat) (s : State) : State :=
  { s with outbox := s.outbox ++ [c % 256, v / 256 % 256, v % 256] }

/-- `writeFirmware()` -/
def writeFirmwareF (s : State) : State := writeCmdF 0 firmwareVersion s

/-- The `data2 == 0x01` (play) branch: acts according to the stored mode. -/
def playCmd (d1 : Nat) (s : State) : State :=
  match s.mode with
  | 0 => allOffF (stopLightsShowF (stopTimerF s))
  | 1 => lightsOnF s.dart1 (allOffF (stopTimerF s))
  | 2 => startLightsFlashing 500 s
  | 3 => startLightsRunning 200 2 s
  | 4 => s
  | 5 => startLightsBroadway 200 s
  | 6 => startLightsShow s
  | 7 =>
    (match d1 with
     | 0 => lightsOnF s.dart1 s
     | 1 => lightsOnF s.dart2 s
     | 2 => lightsOnF s.dart3 s
     | 3 => lightsOnF s.dart4 s
     | 4 => lightsOnF s.dart5 s
     | 5 => lightsOnF s.backGround s
     | _ => s)
  | 8 => startPaletteShow s
  | 9 => startRainbowShow s
  | _ => allOffF (stopTimerF s)

/-- Decode one complete 3-byte frame `(data0, data1, data2)`: the big
opcode dispatch of `loop()`.  Unknown opcodes fall through to the final
default and leave the state untouched. -/
def decodeFrame (d0 d1 d2 : Nat) (s : State) : State :=
  match d0 with
  | 0 => writeFirmwareF s
  | 1 =>
    (match d2 with
     | 0 => allOffF (stopLightsShowF (stopTimerF s))
     | 1 => playCmd d1 s
     | _ => s)
  | 2 => { s with mode := d2 }
  | 3 => { s with dart1 := { s.dart1 with r := d1, g := d2 } }
  | 4 => { s with dart1 := { s.dart1 with b := d2 } }
  | 5 => { s with dart2 := { s.dart2 with r := d1, g := d2 } }
  | 6 => { s with dart2 := { s.dart2 with b := d2 } }
  | 7 => { s with dart3 := { s.dart3 with r := d1, g := d2 } }
  | 8 => { s with dart3 := { s.dart3 with b := d2 } }
  | 9 => { s with dart4 := { s.dart4 with r := d1, g := d2 } }
  | 10 => { s with dart4 := { s.dart4 with b := d2 } }
  | 11 => { s with dart5 := { s.dart5 with r := d1, g := d2 } }
  | 12 => { s with dart5 := { s.dart5 with b := d2 } }
  | 13 => { s with backGround := { s.backGround with r := d1, g := d2 } }
  | 14 => { s with backGround := { s.backGround with b := d2 } }
  | 15 => setBrightnessF { s with brightness := d2 }
  | 16 =>
    (match d2 with
     | 0 => { s with setColor := s.dart1 }
     | 1 => { s with setColor := s.dart2 }
     | 2 => { s with setColor := s.dart3 }
     | 3 => { s with setColor := s.dart4 }
     | 4 => { s with setColor := s.dart5 }
     | 5 => { s with setColor := s.backGround }
     | _ => allOffF (stopTimerF s))
  | _ => s

/-- `ble_read()`: pop one byte from the transport receive buffer; the
external stack's return value on an empty buffer is modelled as 0 (no
claim depends on that value). -/
def bleRead (s : State) : Nat × State :=
  match s.inbox with
  | [] => (0, s)
  | b :: rest => (b % 256, { s with inbox := rest })

/-- The body of the `while (ble_available())` loop: three unconditional
`ble_read()` calls followed by the opcode dispatch. -/
def decodeStep (s : State) : State :=
  let p0 := bleRead s
  let p1 := bleRead p0.2
  let p2 := bleRead p1.2
  decodeFrame p0.1 p1.1 p2.1 p2.2

/-- One guarded iteration of the `while (ble_available())` loop:
`ble_available()` is true exactly when the receive buffer is nonempty. -/
def bleLoopIter (s : State) : State :=
  if s.inbox = [] then s else decodeStep s

/-- The whole `while (ble_available())` loop of one `loop()` pass.  Each
iteration consumes at least one byte, so `s.inbox.length` iterations
always drain the buffer. -/
def processFuel : Nat → State → State
  | 0, s => s
  | n + 1, s => if s.inbox = [] then s else processFuel n (decodeStep s)

def processInbox (s : State) : State := processFuel s.inbox.length s

/-! ### Initial state, setup, and the machine step relation -/

/-- The C++ globals at program start (before `setup()` runs): default dart
colors, brightness 50, mode 1, `clearHeat = true`, zeroed buffers, no
timer jobs, timer ids 0.  The `run[6]` array is uninitialized in C++ and
modelled as zeroed; the PRNG streams default to the zero stream and are
overridden where a run needs specific draws. -/
def baseState : State where
  leds := fun _ => black
  dart1 := ⟨0xFF, 0x7F, 0x50⟩
  dart2 := ⟨0xA9, 0xA9, 0xA9⟩
  dart3 := ⟨0xDC, 0xDC, 0xDC⟩
  dart4 := ⟨0x87, 0xCE, 0xEB⟩
  dart5 := ⟨0xEE, 0x82, 0xEE⟩
  backGround := ⟨0xFF, 0xFF, 0xE0⟩
  setColor := black
  brightness := 50
  stripBrightness := 255
  mode := 1
  numRunners := 1
  run := fun _ => ⟨0, 0⟩
  clearHeat := true
  heat := fun _ => 0
  flashBlink := false
  broadwayBlink := false
  paletteStartIndex := 0
  tJobs := []
  tNextId := 1
  timerID := 0
  t2Jobs := []
  t2NextId := 1
  timerID2 := 0
  rng := fun _ => 0
  rngIdx := 0
  rng8 := fun _ => 0
  rng8Idx := 0
  inbox := []
  outbox := []

/-- `setup()`: blank the strip, set the initial brightness, start the
default light show (BLE bring-up is external). -/
def setupState (s : State) : State :=
  startLightsShow { allOffF s with stripBrightness := s.brightness }

/-- One observable step of the firmware main loop: a pass over the
transport buffer, arrival of a transport byte, or the `Timer` library
firing one registered job (`t.update()` / `t2.update()`). -/
inductive MachineStep : State → State → Prop where
  | frames (s : State) : MachineStep s (processInbox s)
  | arrive (s : State) (b : Nat) : MachineStep s { s with inbox := s.inbox ++ [b] }
  | effectTick (s : State) (j : TJob) (hj : j ∈ s.tJobs) : MachineStep s (runTick j.fn s)
  | seqTick (s : State) (j : TJob) (hj : j ∈ s.t2Jobs) : MachineStep s (runTick j.fn s)

/-- Scheduler slot invariant: every live job on timer `t` is the one whose
id the firmware holds in `timerID` (hence at most one effect job), and the
same for `t2`/`timerID2` (the sequence slot). -/
def TInv (s : State) : Prop :=
  (∀ j ∈ s.tJobs, j.id = s.timerID) ∧ s.tJobs.length ≤ 1 ∧
  (∀ j ∈ s.t2Jobs, j.id = s.timerID2) ∧ s.t2Jobs.length ≤ 1

instance (s : State) : Decidable (TInv s) := by
  unfold TInv
  infer_instance

/-- Running-lights invariant: `N` runners, all positions on the strip, and
every non-black pixel is the active color sitting at some runner's
position. -/
def Inv6 (N : Nat) (s : State) : Prop :=
  s.numRunners = N ∧
  (∀ i, i < N → (s.run i).pos < NUM_LEDS) ∧
  (∀ p, p < NUM_LEDS → s.leds p = black ∨
     (s.leds p = s.setColor ∧ ∃ i, i < N ∧ (s.run i).pos = p))

/-! ## Iterated running-lights ticks -/

def ticksRun : Nat → State → State
  | 0, s => s
  | n + 1, s => ticksRun n (lightsRunningTick s)

/-- Number of pixels currently showing the active color. -/
def litCount (s : State) : Nat :=
  ((List.range NUM_LEDS).filter (fun p => decide (s.leds p = s.setColor))).length

/-- The color the select-active-color opcode copies for index `k`. -/
def selColor (k : Nat) (s : State) : CRGB :=
  match k with
  | 0 => s.dart1
  | 1 => s.dart2
  | 2 => s.dart3
  | 3 => s.dart4
  | 4 => s.dart5
  | 5 => s.backGround
  | _ => s.setColor

/-! ## The six effect-start entry points, as one indexed family -/

inductive EffectCmd where
  | fireE
  | paletteE
  | rainbowE
  | flashingE (dur : Nat)
  | broadwayE (dur : Nat)
  | runningE (dur n : Nat)

def startEffect : EffectCmd → State → State
  | EffectCmd.fireE, s => startFire s
  | EffectCmd.paletteE, s => startPaletteShow s
  | EffectCmd.rainbowE, s => startRainbowShow s
  | EffectCmd.flashingE d, s => startLightsFlashing d s
  | EffectCmd.broadwayE d, s => startLightsBroadway d s
  | EffectCmd.runningE d n, s => startLightsRunning d n s

def cmdPeriod : EffectCmd → Nat
  | EffectCmd.fireE => 100
  | EffectCmd.paletteE => 10
  | EffectCmd.rainbowE => 10
  | EffectCmd.flashingE d => d
  | EffectCmd.broadwayE d => d
  | EffectCmd.runningE d _ => d

def cmdFn : EffectCmd → TickFn
  | EffectCmd.fireE => TickFn.fire2012
  | EffectCmd.paletteE => TickFn.paletteShow
  | EffectCmd.rainbowE => TickFn.rainbowShow
  | EffectCmd.flashingE _ => TickFn.lightsFlashing
  | EffectCmd.broadwayE _ => TickFn.lightsBroadway
  | EffectCmd.runningE _ _ => TickFn.lightsRunning

/-! ## Concrete states used by counterexamples and witnesses -/

/-- A state in which the fire effect is running (its job is live) with a
hot, non-zero heat buffer. -/
def fireRunState : State :=
  { baseState with
    heat := fun i => if i < NUM_LEDS then 200 else 0,
    clearHeat := false,
    tJobs := [⟨1, 100, TickFn.fire2012⟩],
    timerID := 1,
    tNextId := 2 }

/-- A base state whose `rand()` stream makes `startLightsRunning`'s two
runners head toward each other (draw 2 is the direction of runner 1). -/
def runDemoState : State := { baseState with rng := fun n => if n = 2 then 1 else 0 }

/-- Two runners started at 0 (going up) and 50 (going down), after the
start tick plus 24 more ticks: both sit on pixel 25. -/
def runDemoEnd : State := ticksRun 24 (startLightsRunning 200 2 runDemoState)

/-- A transport state holding one lone byte of a frame. -/
def oneByteState : State := { baseState with inbox := [15] }

/-- The heat buffer used to separate the two diffusion formulas. -/
def heatDemo : Nat → Nat := fun i => if i = 0 then 3 else 0

/-! ## Theorems -/

@[simp] theorem upd_same {α : Type} (f : Nat → α) (i : Nat) (v : α) :
    upd f i v i = v := by
  simp [upd]

@[simp] theorem upd_ne {α : Type} (f : Nat → α) (i j : Nat) (v : α)
    (h : j ≠ i) : upd f i v j = f j := by
  simp [upd, h]

/-- The descending in-place diffusion loop reads, at index `k`, the cells
`k-1` and `k-2`, which are written only at *later* iterations; hence every
read sees the pre-loop value, and the loop computes a pure map. -/
theorem diffuseFrom_eq (k : Nat) (h : Nat → Nat) (j : Nat) :
    diffuseFrom h k j =
      if 2 ≤ j ∧ j ≤ k then (h (j - 1) + h (j - 2) + h (j - 2)) / 3 else h j := by
  induction k using Nat.strong_induction_on generalizing h with
  | _ k ih =>
    match k with
    | 0 =>
      simp only [diffuseFrom]
      have : ¬(2 ≤ j ∧ j ≤ 0) := by omega
      rw [if_neg this]
    | 1 =>
      simp only [diffuseFrom]
      have : ¬(2 ≤ j ∧ j ≤ 1) := by omega
      rw [if_neg this]
    | k + 2 =>
      simp only [diffuseFrom]
      rw [ih (k + 1) (by omega)]
      by_cases hj : 2 ≤ j ∧ j ≤ k + 1
      · have h1 : j - 1 ≠ k + 2 := by omega
        have h2 : j - 2 ≠ k + 2 := by omega
        have hj' : 2 ≤ j ∧ j ≤ k + 2 := by omega
        simp [hj, hj', upd_ne _ _ _ _ h1, upd_ne _ _ _ _ h2]
      · simp only [if_neg hj]
        by_cases he : j = k + 2
        · subst he
          have hj' : 2 ≤ k + 2 ∧ k + 2 ≤ k + 2 := by omega
          simp only [if_pos hj', upd_same]
          have e1 : k + 2 - 1 = k + 1 := by omega
          have e2 : k + 2 - 2 = k := by omega
          rw [e1, e2]
        · have hcond : ¬(2 ≤ j ∧ j ≤ k + 2) := by omega
          simp [hcond, upd_ne _ _ _ _ he]

theorem rand8_le (x : Nat) : rand8 x ≤ 255 := by
  have := Nat.mod_lt x (show 0 < 256 by omega)
  simp only [rand8]
  omega

theorem rand8lim_lt (x lim : Nat) (h : 0 < lim) : rand8lim x lim < lim := by
  have hx := rand8_le x
  have : rand8 x * lim ≤ 255 * lim := Nat.mul_le_mul_right lim hx
  have : rand8 x * lim / 256 ≤ 255 * lim / 256 := Nat.div_le_div_right this
  have h255 : 255 * lim / 256 < lim := by
    apply Nat.div_lt_of_lt_mul
    omega
  simp only [rand8lim]
  omega

theorem coolStep_le (d h : Nat → Nat) (i : Nat) : coolStep d h i ≤ h i := by
  simp only [coolStep]
  split
  · exact Nat.sub_le _ _
  · exact le_refl _

theorem fireTickHeat_bound (d h : Nat → Nat)
    (hb : ∀ i, i < NUM_LEDS → h i ≤ 255) :
    ∀ i, i < NUM_LEDS → fireTickHeat d h i ≤ 255 := by
  intro i hi
  have hcool : ∀ j, j < NUM_LEDS → coolStep d h j ≤ 255 := fun j hj =>
    le_trans (coolStep_le d h j) (hb j hj)
  have hdiff : ∀ j, j < NUM_LEDS → diffuseFrom (coolStep d h) (NUM_LEDS - 1) j ≤ 255 := by
    intro j hj
    rw [diffuseFrom_eq]
    split
    · rename_i hc
      have b1 : coolStep d h (j - 1) ≤ 255 := hcool _ (by omega)
      have b2 : coolStep d h (j - 2) ≤ 255 := hcool _ (by omega)
      have : coolStep d h (j - 1) + coolStep d h (j - 2) + coolStep d h (j - 2) ≤ 765 := by
        omega
      calc (coolStep d h (j - 1) + coolStep d h (j - 2) + coolStep d h (j - 2)) / 3
          ≤ 765 / 3 := Nat.div_le_div_right this
        _ = 255 := by norm_num
    · exact hcool j hj
  simp only [fireTickHeat, sparkStep]
  split
  · by_cases he : i = rand8lim (d 101) 7
    · rw [he, upd_same]
      simp only [qadd8]
      exact le_trans (Nat.min_le_right _ _) (le_refl _)
    · rw [upd_ne _ _ _ _ he]
      exact hdiff i hi
  · exact hdiff i hi

theorem fireTicks_bound (d : Nat → Nat → Nat) (n : Nat) (h : Nat → Nat)
    (hb : ∀ i, i < NUM_LEDS → h i ≤ 255) :
    ∀ i, i < NUM_LEDS → fireTicks d n h i ≤ 255 := by
  induction n generalizing d h with
  | zero => simpa [fireTicks] using hb
  | succ n ih =>
    simp only [fireTicks]
    exact ih (fun t => d (t + 1)) (fireTickHeat (d 0) h) (fireTickHeat_bound (d 0) h hb)

/-! ## Timer-field neutrality lemmas

The pattern ticks and pixel operations never touch the timer state; these
projection lemmas let `simp` compute the scheduler fields of every
composite operation. -/

@[simp] theorem randomColor_tJobs (s : State) : (randomColor s).tJobs = s.tJobs := by
  simp only [randomColor]
  split <;> rfl

@[simp] theorem randomColor_timerID (s : State) : (randomColor s).timerID = s.timerID := by
  simp only [randomColor]
  split <;> rfl

@[simp] theorem randomColor_tNextId (s : State) : (randomColor s).tNextId = s.tNextId := by
  simp only [randomColor]
  split <;> rfl

@[simp] theorem randomColor_t2Jobs (s : State) : (randomColor s).t2Jobs = s.t2Jobs := by
  simp only [randomColor]
  split <;> rfl

@[simp] theorem randomColor_timerID2 (s : State) : (randomColor s).timerID2 = s.timerID2 := by
  simp only [randomColor]
  split <;> rfl

@[simp] theorem randomColor_t2NextId (s : State) : (randomColor s).t2NextId = s.t2NextId := by
  simp only [randomColor]
  split <;> rfl

@[simp] theorem lightsFlashingTick_tJobs (s : State) :
    (lightsFlashingTick s).tJobs = s.tJobs := by
  unfold lightsFlashingTick lightsOnF allOffF
  split <;> rfl

@[simp] theorem lightsFlashingTick_timerID (s : State) :
    (lightsFlashingTick s).timerID = s.timerID := by
  unfold lightsFlashingTick lightsOnF allOffF
  split <;> rfl

@[simp] theorem lightsFlashingTick_tNextId (s : State) :
    (lightsFlashingTick s).tNextId = s.tNextId := by
  unfold lightsFlashingTick lightsOnF allOffF
  split <;> rfl

@[simp] theorem lightsFlashingTick_t2Jobs (s : State) :
    (lightsFlashingTick s).t2Jobs = s.t2Jobs := by
  unfold lightsFlashingTick lightsOnF allOffF
  split <;> rfl

@[simp] theorem lightsFlashingTick_timerID2 (s : State) :
    (lightsFlashingTick s).timerID2 = s.timerID2 := by
  unfold lightsFlashingTick lightsOnF allOffF
  split <;> rfl

@[simp] theorem lightsFlashingTick_t2NextId (s : State) :
    (lightsFlashingTick s).t2NextId = s.t2NextId := by
  unfold lightsFlashingTick lightsOnF allOffF
  split <;> rfl

@[simp] theorem lightsBroadwayTick_tJobs (s : State) :
    (lightsBroadwayTick s).tJobs = s.tJobs := by
  unfold lightsBroadwayTick lightsOddEvenF
  split <;> rfl

@[simp] theorem lightsBroadwayTick_timerID (s : State) :
    (lightsBroadwayTick s).timerID = s.timerID := by
  unfold lightsBroadwayTick lightsOddEvenF
  split <;> rfl

@[simp] theorem lightsBroadwayTick_tNextId (s : State) :
    (lightsBroadwayTick s).tNextId = s.tNextId := by
  unfold lightsBroadwayTick lightsOddEvenF
  split <;> rfl

@[simp] theorem lightsBroadwayTick_t2Jobs (s : State) :
    (lightsBroadwayTick s).t2Jobs = s.t2Jobs := by
  unfold lightsBroadwayTick lightsOddEvenF
  split <;> rfl

@[simp] theorem lightsBroadwayTick_timerID2 (s : State) :
    (lightsBroadwayTick s).timerID2 = s.timerID2 := by
  unfold lightsBroadwayTick lightsOddEvenF
  split <;> rfl

@[simp] theorem lightsBroadwayTick_t2NextId (s : State) :
    (lightsBroadwayTick s).t2NextId = s.t2NextId := by
  unfold lightsBroadwayTick lightsOddEvenF
  split <;> rfl

@[simp] theorem runLoop_tJobs (s : State) (m : Nat) : (runLoop s m).tJobs = s.tJobs := by
  induction m with
  | zero => rfl
  | succ m ih => simp [runLoop, runStep, ih]

@[simp] theorem runLoop_timerID (s : State) (m : Nat) : (runLoop s m).timerID = s.timerID := by
  induction m with
  | zero => rfl
  | succ m ih => simp [runLoop, runStep, ih]

@[simp] theorem runLoop_tNextId (s : State) (m : Nat) : (runLoop s m).tNextId = s.tNextId := by
  induction m with
  | zero => rfl
  | succ m ih => simp [runLoop, runStep, ih]

@[simp] theorem runLoop_t2Jobs (s : State) (m : Nat) : (runLoop s m).t2Jobs = s.t2Jobs := by
  induction m with
  | zero => rfl
  | succ m ih => simp [runLoop, runStep, ih]

@[simp] theorem runLoop_timerID2 (s : State) (m : Nat) : (runLoop s m).timerID2 = s.timerID2 := by
  induction m with
  | zero => rfl
  | succ m ih => simp [runLoop, runStep, ih]

@[simp] theorem runLoop_t2NextId (s : State) (m : Nat) : (runLoop s m).t2NextId = s.t2NextId := by
  induction m with
  | zero => rfl
  | succ m ih => simp [runLoop, runStep, ih]

@[simp] theorem initRunners_tJobs (r : Nat) (s : State) (m : Nat) :
    (initRunners r s m).tJobs = s.tJobs := by
  induction m with
  | zero => rfl
  | succ m ih => simp [initRunners, ih]

@[simp] theorem initRunners_timerID (r : Nat) (s : State) (m : Nat) :
    (initRunners r s m).timerID = s.timerID := by
  induction m with
  | zero => rfl
  | succ m ih => simp [initRunners, ih]

@[simp] theorem initRunners_tNextId (r : Nat) (s : State) (m : Nat) :
    (initRunners r s m).tNextId = s.tNextId := by
  induction m with
  | zero => rfl
  | succ m ih => simp [initRunners, ih]

@[simp] theorem initRunners_t2Jobs (r : Nat) (s : State) (m : Nat) :
    (initRunners r s m).t2Jobs = s.t2Jobs := by
  induction m with
  | zero => rfl
  | succ m ih => simp [initRunners, ih]

@[simp] theorem initRunners_timerID2 (r : Nat) (s : State) (m : Nat) :
    (initRunners r s m).timerID2 = s.timerID2 := by
  induction m with
  | zero => rfl
  | succ m ih => simp [initRunners, ih]

@[simp] theorem initRunners_t2NextId (r : Nat) (s : State) (m : Nat) :
    (initRunners r s m).t2NextId = s.t2NextId := by
  induction m with
  | zero => rfl
  | succ m ih => simp [initRunners, ih]

/-! ## Shapes of the start functions

Every `start*` function performs `timerID = t.stop(timerID)` and then
`timerID = t.every(...)`: the new job list is the new job consed onto the
old list with the job named by `timerID` removed. -/

theorem startFire_shape (s : State) :
    (startFire s).tJobs =
      ⟨s.tNextId, 100, TickFn.fire2012⟩ :: s.tJobs.filter (fun j => j.id ≠ s.timerID) ∧
    (startFire s).timerID = s.tNextId ∧
    (startFire s).tNextId = s.tNextId + 1 ∧
    (startFire s).t2Jobs = s.t2Jobs ∧
    (startFire s).timerID2 = s.timerID2 ∧
    (startFire s).t2NextId = s.t2NextId := by
  refine ⟨?_, ?_, ?_, ?_, ?_, ?_⟩ <;>
    simp [startFire, tEvery, fire2012Tick, tStop, allOffF, setBrightnessF]

theorem startLightsFlashing_shape (dur : Nat) (s : State) :
    (startLightsFlashing dur s).tJobs =
      ⟨s.tNextId, dur, TickFn.lightsFlashing⟩ :: s.tJobs.filter (fun j => j.id ≠ s.timerID) ∧
    (startLightsFlashing dur s).timerID = s.tNextId ∧
    (startLightsFlashing dur s).tNextId = s.tNextId + 1 ∧
    (startLightsFlashing dur s).t2Jobs = s.t2Jobs ∧
    (startLightsFlashing dur s).timerID2 = s.timerID2 ∧
    (startLightsFlashing dur s).t2NextId = s.t2NextId := by
  refine ⟨?_, ?_, ?_, ?_, ?_, ?_⟩ <;>
    simp [startLightsFlashing, tEvery, tStop, allOffF, setBrightnessF]

theorem startLightsBroadway_shape (dur : Nat) (s : State) :
    (startLightsBroadway dur s).tJobs =
      ⟨s.tNextId, dur, TickFn.lightsBroadway⟩ :: s.tJobs.filter (fun j => j.id ≠ s.timerID) ∧
    (startLightsBroadway dur s).timerID = s.tNextId ∧
    (startLightsBroadway dur s).tNextId = s.tNextId + 1 ∧
    (startLightsBroadway dur s).t2Jobs = s.t2Jobs ∧
    (startLightsBroadway dur s).timerID2 = s.timerID2 ∧
    (startLightsBroadway dur s).t2NextId = s.t2NextId := by
  refine ⟨?_, ?_, ?_, ?_, ?_, ?_⟩ <;>
    simp [startLightsBroadway, tEvery, tStop, allOffF, setBrightnessF]

theorem startLightsRunning_shape (dur r : Nat) (s : State) :
    (startLightsRunning dur r s).tJobs =
      ⟨s.tNextId, dur, TickFn.lightsRunning⟩ :: s.tJobs.filter (fun j => j.id ≠ s.timerID) ∧
    (startLightsRunning dur r s).timerID = s.tNextId ∧
    (startLightsRunning dur r s).tNextId = s.tNextId + 1 ∧
    (startLightsRunning dur r s).t2Jobs = s.t2Jobs ∧
    (startLightsRunning dur r s).timerID2 = s.timerID2 ∧
    (startLightsRunning dur r s).t2NextId = s.t2NextId := by
  refine ⟨?_, ?_, ?_, ?_, ?_, ?_⟩ <;>
    simp [startLightsRunning, lightsRunningTick, tEvery, tStop, allOffF, setBrightnessF]

theorem startPaletteShow_shape (s : State) :
    (startPaletteShow s).tJobs =
      ⟨s.tNextId, 10, TickFn.paletteShow⟩ :: s.tJobs.filter (fun j => j.id ≠ s.timerID) ∧
    (startPaletteShow s).timerID = s.tNextId ∧
    (startPaletteShow s).tNextId = s.tNextId + 1 ∧
    (startPaletteShow s).t2Jobs = s.t2Jobs ∧
    (startPaletteShow s).timerID2 = s.timerID2 ∧
    (startPaletteShow s).t2NextId = s.t2NextId := by
  refine ⟨?_, ?_, ?_, ?_, ?_, ?_⟩ <;>
    simp [startPaletteShow, paletteShowTick, tEvery, tStop, allOffF]

theorem startRainbowShow_shape (s : State) :
    (startRainbowShow s).tJobs =
      ⟨s.tNextId, 10, TickFn.rainbowShow⟩ :: s.tJobs.filter (fun j => j.id ≠ s.timerID) ∧
    (startRainbowShow s).timerID = s.tNextId ∧
    (startRainbowShow s).tNextId = s.tNextId + 1 ∧
    (startRainbowShow s).t2Jobs = s.t2Jobs ∧
    (startRainbowShow s).timerID2 = s.timerID2 ∧
    (startRainbowShow s).t2NextId = s.t2NextId := by
  refine ⟨?_, ?_, ?_, ?_, ?_, ?_⟩ <;>
    simp [startRainbowShow, rainbowShowTick, tEvery, tStop, allOffF]

/-- Under the slot invariant, `t.stop(timerID)` removes every live job. -/
theorem filterStop_nil {l : List TJob} {i : Nat} (h : ∀ j ∈ l, j.id = i) :
    l.filter (fun j => j.id ≠ i) = [] := by
  rw [List.filter_eq_nil_iff]
  intro j hj
  simp [h j hj]

/-- Generic consequence of a start-function shape: the scheduler holds
exactly the one new job, and the slot invariant is preserved. -/
theorem shape_consequences {s s1 : State} (p : Nat) (f : TickFn) (h : TInv s)
    (e1 : s1.tJobs = ⟨s.tNextId, p, f⟩ :: s.tJobs.filter (fun j => j.id ≠ s.timerID))
    (e2 : s1.timerID = s.tNextId)
    (e4 : s1.t2Jobs = s.t2Jobs) (e5 : s1.timerID2 = s.timerID2) :
    s1.tJobs = [⟨s.tNextId, p, f⟩] ∧ TInv s1 := by
  obtain ⟨h1, h2, h3, h4⟩ := h
  have hsing : s1.tJobs = [⟨s.tNextId, p, f⟩] := by
    rw [e1, filterStop_nil h1]
  refine ⟨hsing, ?_, ?_, ?_, ?_⟩
  · intro j hj
    rw [hsing] at hj
    simp at hj
    rw [hj, e2]
  · rw [hsing]
    simp
  · intro j hj
    rw [e4] at hj
    rw [e5]
    exact h3 j hj
  · rw [e4]
    exact h4

theorem startFire_inv {s : State} (h : TInv s) :
    (startFire s).tJobs = [⟨s.tNextId, 100, TickFn.fire2012⟩] ∧ TInv (startFire s) := by
  obtain ⟨e1, e2, e3, e4, e5, e6⟩ := startFire_shape s
  exact shape_consequences _ _ h e1 e2 e4 e5

theorem startLightsFlashing_inv {s : State} (dur : Nat) (h : TInv s) :
    (startLightsFlashing dur s).tJobs = [⟨s.tNextId, dur, TickFn.lightsFlashing⟩] ∧
    TInv (startLightsFlashing dur s) := by
  obtain ⟨e1, e2, e3, e4, e5, e6⟩ := startLightsFlashing_shape dur s
  exact shape_consequences _ _ h e1 e2 e4 e5

theorem startLightsBroadway_inv {s : State} (dur : Nat) (h : TInv s) :
    (startLightsBroadway dur s).tJobs = [⟨s.tNextId, dur, TickFn.lightsBroadway⟩] ∧
    TInv (startLightsBroadway dur s) := by
  obtain ⟨e1, e2, e3, e4, e5, e6⟩ := startLightsBroadway_shape dur s
  exact shape_consequences _ _ h e1 e2 e4 e5

theorem startLightsRunning_inv {s : State} (dur r : Nat) (h : TInv s) :
    (startLightsRunning dur r s).tJobs = [⟨s.tNextId, dur, TickFn.lightsRunning⟩] ∧
    TInv (startLightsRunning dur r s) := by
  obtain ⟨e1, e2, e3, e4, e5, e6⟩ := startLightsRunning_shape dur r s
  exact shape_consequences _ _ h e1 e2 e4 e5

theorem startPaletteShow_inv {s : State} (h : TInv s) :
    (startPaletteShow s).tJobs = [⟨s.tNextId, 10, TickFn.paletteShow⟩] ∧
    TInv (startPaletteShow s) := by
  obtain ⟨e1, e2, e3, e4, e5, e6⟩ := startPaletteShow_shape s
  exact shape_consequences _ _ h e1 e2 e4 e5

theorem startRainbowShow_inv {s : State} (h : TInv s) :
    (startRainbowShow s).tJobs = [⟨s.tNextId, 10, TickFn.rainbowShow⟩] ∧
    TInv (startRainbowShow s) := by
  obtain ⟨e1, e2, e3, e4, e5, e6⟩ := startRainbowShow_shape s
  exact shape_consequences _ _ h e1 e2 e4 e5

/-! ## Invariant preservation across all firmware operations -/

/-- The slot invariant only looks at four fields. -/
theorem TInv_congr {s s1 : State} (h : TInv s)
    (e1 : s1.tJobs = s.tJobs) (e2 : s1.timerID = s.timerID)
    (e3 : s1.t2Jobs = s.t2Jobs) (e4 : s1.timerID2 = s.timerID2) : TInv s1 := by
  unfold TInv at h ⊢
  rw [e1, e2, e3, e4]
  exact h

theorem stopTimerF_inv {s : State} (h : TInv s) :
    (stopTimerF s).tJobs = [] ∧ TInv (stopTimerF s) := by
  obtain ⟨h1, h2, h3, h4⟩ := h
  have e : (stopTimerF s).tJobs = [] := by
    simp only [stopTimerF, tStop]
    exact filterStop_nil h1
  refine ⟨e, ?_, ?_, ?_, ?_⟩
  · intro j hj
    rw [e] at hj
    simp at hj
  · rw [e]
    simp
  · exact h3
  · exact h4

theorem stopLightsShowF_inv {s : State} (h : TInv s) :
    (stopLightsShowF s).t2Jobs = [] ∧ TInv (stopLightsShowF s) := by
  obtain ⟨h1, h2, h3, h4⟩ := h
  have e : (stopLightsShowF s).t2Jobs = [] := by
    simp only [stopLightsShowF, allOffF, t2StopKeepId]
    exact filterStop_nil h3
  refine ⟨e, ?_, ?_, ?_, ?_⟩
  · exact h1
  · exact h2
  · intro j hj
    rw [e] at hj
    simp at hj
  · rw [e]
    simp

theorem lightShowTick_inv {s : State} (h : TInv s) : TInv (lightShowTick s) := by
  have hs2 : TInv (randomColor { s with rngIdx := s.rngIdx + 1 }) :=
    TInv_congr h (by simp) (by simp) (by simp) (by simp)
  simp only [lightShowTick]
  split
  · exact (startLightsFlashing_inv 200 hs2).2
  · exact (startLightsRunning_inv 200 4 hs2).2
  · exact (startLightsBroadway_inv 200 hs2).2
  · exact (startPaletteShow_inv hs2).2
  · exact (startLightsRunning_inv 200 6 hs2).2
  · exact (startFire_inv hs2).2
  · exact (startRainbowShow_inv hs2).2

@[simp] theorem startFire_t2Jobs (s : State) : (startFire s).t2Jobs = s.t2Jobs :=
  (startFire_shape s).2.2.2.1

@[simp] theorem startFire_timerID2 (s : State) : (startFire s).timerID2 = s.timerID2 :=
  (startFire_shape s).2.2.2.2.1

@[simp] theorem startFire_t2NextId (s : State) : (startFire s).t2NextId = s.t2NextId :=
  (startFire_shape s).2.2.2.2.2

@[simp] theorem startLightsFlashing_t2Jobs (dur : Nat) (s : State) :
    (startLightsFlashing dur s).t2Jobs = s.t2Jobs :=
  (startLightsFlashing_shape dur s).2.2.2.1

@[simp] theorem startLightsFlashing_timerID2 (dur : Nat) (s : State) :
    (startLightsFlashing dur s).timerID2 = s.timerID2 :=
  (startLightsFlashing_shape dur s).2.2.2.2.1

@[simp] theorem startLightsFlashing_t2NextId (dur : Nat) (s : State) :
    (startLightsFlashing dur s).t2NextId = s.t2NextId :=
  (startLightsFlashing_shape dur s).2.2.2.2.2

@[simp] theorem startLightsBroadway_t2Jobs (dur : Nat) (s : State) :
    (startLightsBroadway dur s).t2Jobs = s.t2Jobs :=
  (startLightsBroadway_shape dur s).2.2.2.1

@[simp] theorem startLightsBroadway_timerID2 (dur : Nat) (s : State) :
    (startLightsBroadway dur s).timerID2 = s.timerID2 :=
  (startLightsBroadway_shape dur s).2.2.2.2.1

@[simp] theorem startLightsBroadway_t2NextId (dur : Nat) (s : State) :
    (startLightsBroadway dur s).t2NextId = s.t2NextId :=
  (startLightsBroadway_shape dur s).2.2.2.2.2

@[simp] theorem startLightsRunning_t2Jobs (dur r : Nat) (s : State) :
    (startLightsRunning dur r s).t2Jobs = s.t2Jobs :=
  (startLightsRunning_shape dur r s).2.2.2.1

@[simp] theorem startLightsRunning_timerID2 (dur r : Nat) (s : State) :
    (startLightsRunning dur r s).timerID2 = s.timerID2 :=
  (startLightsRunning_shape dur r s).2.2.2.2.1

@[simp] theorem startLightsRunning_t2NextId (dur r : Nat) (s : State) :
    (startLightsRunning dur r s).t2NextId = s.t2NextId :=
  (startLightsRunning_shape dur r s).2.2.2.2.2

@[simp] theorem startPaletteShow_t2Jobs (s : State) :
    (startPaletteShow s).t2Jobs = s.t2Jobs :=
  (startPaletteShow_shape s).2.2.2.1

@[simp] theorem startPaletteShow_timerID2 (s : State) :
    (startPaletteShow s).timerID2 = s.timerID2 :=
  (startPaletteShow_shape s).2.2.2.2.1

@[simp] theorem startPaletteShow_t2NextId (s : State) :
    (startPaletteShow s).t2NextId = s.t2NextId :=
  (startPaletteShow_shape s).2.2.2.2.2

@[simp] theorem startRainbowShow_t2Jobs (s : State) :
    (startRainbowShow s).t2Jobs = s.t2Jobs :=
  (startRainbowShow_shape s).2.2.2.1

@[simp] theorem startRainbowShow_timerID2 (s : State) :
    (startRainbowShow s).timerID2 = s.timerID2 :=
  (startRainbowShow_shape s).2.2.2.2.1

@[simp] theorem startRainbowShow_t2NextId (s : State) :
    (startRainbowShow s).t2NextId = s.t2NextId :=
  (startRainbowShow_shape s).2.2.2.2.2

theorem lightShowTick_t2 (s : State) :
    (lightShowTick s).t2Jobs = s.t2Jobs ∧ (lightShowTick s).timerID2 = s.timerID2 ∧
    (lightShowTick s).t2NextId = s.t2NextId := by
  simp only [lightShowTick]
  split <;> simp

theorem startLightsShow_inv {s : State} (h : TInv s) : TInv (startLightsShow s) := by
  obtain ⟨h1, h2, h3, h4⟩ := h
  have hX : TInv (t2Stop (allOffF (setBrightnessF s))) := by
    refine ⟨?_, ?_, ?_, ?_⟩
    · intro j hj
      simp only [t2Stop, allOffF, setBrightnessF] at hj ⊢
      exact h1 j hj
    · simp only [t2Stop, allOffF, setBrightnessF]
      exact h2
    · intro j hj
      simp only [t2Stop, allOffF, setBrightnessF] at hj
      rw [List.mem_filter] at hj
      exact absurd (h3 j hj.1) (by simpa using hj.2)
    · simp only [t2Stop, allOffF, setBrightnessF]
      calc ((allOffF (setBrightnessF s)).t2Jobs.filter _).length
          ≤ (allOffF (setBrightnessF s)).t2Jobs.length := List.length_filter_le _ _
        _ ≤ 1 := h4
  have hY : TInv (lightShowTick (t2Stop (allOffF (setBrightnessF s)))) := lightShowTick_inv hX
  have e2nil : (t2Stop (allOffF (setBrightnessF s))).t2Jobs = [] := by
    simp only [t2Stop, allOffF, setBrightnessF]
    exact filterStop_nil h3
  obtain ⟨f1, f2, f3⟩ := lightShowTick_t2 (t2Stop (allOffF (setBrightnessF s)))
  obtain ⟨g1, g2, g3, g4⟩ := hY
  simp only [startLightsShow]
  refine ⟨?_, ?_, ?_, ?_⟩
  · intro j hj
    simp only [t2Every] at hj ⊢
    exact g1 j hj
  · simp only [t2Every]
    exact g2
  · intro j hj
    simp only [t2Every] at hj ⊢
    rw [f1, e2nil] at hj
    simp at hj
    rw [hj]
  · simp only [t2Every]
    rw [f1, e2nil]
    simp

theorem playCmd_inv (d1 : Nat) {s : State} (h : TInv s) : TInv (playCmd d1 s) := by
  simp only [playCmd]
  split
  · exact TInv_congr (stopLightsShowF_inv (stopTimerF_inv h).2).2 rfl rfl rfl rfl
  · exact TInv_congr (stopTimerF_inv h).2 rfl rfl rfl rfl
  · exact (startLightsFlashing_inv 500 h).2
  · exact (startLightsRunning_inv 200 2 h).2
  · exact h
  · exact (startLightsBroadway_inv 200 h).2
  · exact startLightsShow_inv h
  · split <;> exact TInv_congr h rfl rfl rfl rfl
  · exact (startPaletteShow_inv h).2
  · exact (startRainbowShow_inv h).2
  · exact TInv_congr (stopTimerF_inv h).2 rfl rfl rfl rfl

theorem decodeFrame_inv (d0 d1 d2 : Nat) {s : State} (h : TInv s) :
    TInv (decodeFrame d0 d1 d2 s) := by
  simp only [decodeFrame]
  split
  all_goals try exact TInv_congr h rfl rfl rfl rfl
  · split
    · exact TInv_congr (stopLightsShowF_inv (stopTimerF_inv h).2).2 rfl rfl rfl rfl
    · exact playCmd_inv d1 h
    · exact h
  · split
    all_goals try exact TInv_congr h rfl rfl rfl rfl
    exact TInv_congr (stopTimerF_inv h).2 rfl rfl rfl rfl

theorem bleRead_inv {s : State} (h : TInv s) : TInv (bleRead s).2 := by
  refine TInv_congr h ?_ ?_ ?_ ?_ <;> (unfold bleRead; split <;> rfl)

theorem decodeStep_inv {s : State} (h : TInv s) : TInv (decodeStep s) := by
  simp only [decodeStep]
  exact decodeFrame_inv _ _ _ (bleRead_inv (bleRead_inv (bleRead_inv h)))

theorem processFuel_inv (n : Nat) {s : State} (h : TInv s) : TInv (processFuel n s) := by
  induction n generalizing s with
  | zero => exact h
  | succ n ih =>
    simp only [processFuel]
    split
    · exact h
    · exact ih (decodeStep_inv h)

theorem runTick_inv (f : TickFn) {s : State} (h : TInv s) : TInv (runTick f s) := by
  cases f with
  | fire2012 => exact TInv_congr h rfl rfl rfl rfl
  | lightsFlashing =>
    exact TInv_congr h (by simp [runTick]) (by simp [runTick]) (by simp [runTick])
      (by simp [runTick])
  | lightsBroadway =>
    exact TInv_congr h (by simp [runTick]) (by simp [runTick]) (by simp [runTick])
      (by simp [runTick])
  | lightsRunning =>
    exact TInv_congr h (by simp [runTick, lightsRunningTick]) (by simp [runTick, lightsRunningTick])
      (by simp [runTick, lightsRunningTick]) (by simp [runTick, lightsRunningTick])
  | paletteShow => exact TInv_congr h rfl rfl rfl rfl
  | rainbowShow => exact TInv_congr h rfl rfl rfl rfl
  | lightShow => exact lightShowTick_inv h

/-- Every machine step preserves the scheduler slot invariant. -/
theorem machineStep_inv {s s1 : State} (hs : MachineStep s s1) (h : TInv s) : TInv s1 := by
  cases hs with
  | frames => exact processFuel_inv _ h
  | arrive => exact TInv_congr h rfl rfl rfl rfl
  | effectTick j hj => exact runTick_inv j.fn h
  | seqTick j hj => exact runTick_inv j.fn h

/-- The slot invariant holds in every state reachable from a state
satisfying it. -/
theorem reachable_inv {s0 s : State} (hr : Relation.ReflTransGen MachineStep s0 s)
    (h : TInv s0) : TInv s := by
  induction hr with
  | refl => exact h
  | tail _ hstep ih => exact machineStep_inv hstep ih

/-! ## Running-lights analysis -/

theorem moveRunner_pos (r : Runner) :
    (moveRunner r).pos =
      if r.dir = 0 then (if r.pos = NUM_LEDS - 1 then 0 else r.pos + 1)
      else (if r.pos = 0 then NUM_LEDS - 1 else r.pos - 1) := by
  unfold moveRunner
  split <;> split <;> rfl

theorem moveRunner_lt (r : Runner) (h : r.pos < NUM_LEDS) :
    (moveRunner r).pos < NUM_LEDS := by
  rw [moveRunner_pos]
  unfold NUM_LEDS at h ⊢
  split <;> split <;> omega

@[simp] theorem runLoop_setColor (s : State) (m : Nat) :
    (runLoop s m).setColor = s.setColor := by
  induction m with
  | zero => rfl
  | succ m ih => simp [runLoop, runStep, ih]

@[simp] theorem runLoop_numRunners (s : State) (m : Nat) :
    (runLoop s m).numRunners = s.numRunners := by
  induction m with
  | zero => rfl
  | succ m ih => simp [runLoop, runStep, ih]

/-- Runners `0..m-1` have moved, the rest are untouched. -/
theorem runLoop_run (s : State) (m j : Nat) :
    (runLoop s m).run j = if j < m then moveRunner (s.run j) else s.run j := by
  induction m generalizing j with
  | zero => simp [runLoop]
  | succ m ih =>
    simp only [runLoop, runStep]
    have hm : (runLoop s m).run m = s.run m := by
      rw [ih m]
      simp
    by_cases hj : j = m
    · subst hj
      rw [upd_same, hm, if_pos (by omega)]
    · rw [upd_ne _ _ _ _ hj, ih j]
      by_cases hlt : j < m
      · rw [if_pos hlt, if_pos (by omega)]
      · rw [if_neg hlt, if_neg (by omega)]

/-- After processing runners `0..m-1`, every pixel is black, or lit in the
active color at the new position of an already-processed runner, or
untouched and away from every processed runner's old position. -/
theorem runLoop_leds (s : State) (m p : Nat) :
    (runLoop s m).leds p = black ∨
    ((runLoop s m).leds p = s.setColor ∧ ∃ j, j < m ∧ (moveRunner (s.run j)).pos = p) ∨
    ((runLoop s m).leds p = s.leds p ∧ ∀ j, j < m → (s.run j).pos ≠ p) := by
  induction m with
  | zero =>
    right; right
    constructor
    · rfl
    · intro j hj
      omega
  | succ m ih =>
    simp only [runLoop, runStep]
    have hm : (runLoop s m).run m = s.run m := by
      rw [runLoop_run]
      simp
    rw [hm, runLoop_setColor]
    by_cases hnp : p = (moveRunner (s.run m)).pos
    · right; left
      subst hnp
      rw [upd_same]
      exact ⟨rfl, m, by omega, rfl⟩
    · rw [upd_ne _ _ _ _ hnp]
      by_cases hop : p = (s.run m).pos
      · left
        subst hop
        rw [upd_same]
      · rw [upd_ne _ _ _ _ hop]
        rcases ih with hb | ⟨hc, j, hj, hjp⟩ | ⟨he, haway⟩
        · left; exact hb
        · right; left
          exact ⟨hc, j, by omega, hjp⟩
        · right; right
          refine ⟨he, ?_⟩
          intro j hj
          by_cases hjm : j = m
          · subst hjm
            exact fun hcontra => hop hcontra.symm
          · exact haway j (by omega)

theorem inv6_tick {N : Nat} {s : State} (h : Inv6 N s) : Inv6 N (lightsRunningTick s) := by
  obtain ⟨hN, hpos, hleds⟩ := h
  unfold lightsRunningTick
  rw [hN]
  refine ⟨by simp [hN], ?_, ?_⟩
  · intro i hi
    rw [runLoop_run, if_pos hi]
    exact moveRunner_lt _ (hpos i hi)
  · intro p hp
    rcases runLoop_leds s N p with hb | ⟨hc, j, hj, hjp⟩ | ⟨he, haway⟩
    · left; exact hb
    · right
      rw [runLoop_setColor] at *
      refine ⟨hc, j, hj, ?_⟩
      rw [runLoop_run, if_pos hj]
      exact hjp
    · rcases hleds p hp with hb | ⟨hc, i, hi, hip⟩
      · left
        rw [he]
        exact hb
      · exact absurd hip (haway i hi)

@[simp] theorem initRunners_rng (r : Nat) (s : State) (m : Nat) :
    (initRunners r s m).rng = s.rng := by
  induction m with
  | zero => rfl
  | succ m ih => simp [initRunners, ih]

@[simp] theorem initRunners_rngIdx (r : Nat) (s : State) (m : Nat) :
    (initRunners r s m).rngIdx = s.rngIdx + m := by
  induction m with
  | zero => rfl
  | succ m ih => simp [initRunners, ih]; omega

@[simp] theorem initRunners_leds (r : Nat) (s : State) (m : Nat) :
    (initRunners r s m).leds = s.leds := by
  induction m with
  | zero => rfl
  | succ m ih => simp [initRunners, ih]

@[simp] theorem initRunners_setColor (r : Nat) (s : State) (m : Nat) :
    (initRunners r s m).setColor = s.setColor := by
  induction m with
  | zero => rfl
  | succ m ih => simp [initRunners, ih]

/-- Runner initialization: runner `i < m` gets position
`i * (NUM_LEDS / runners)` and direction `rand() % 2` (the `i`-th draw
after the `randomColor` draw). -/
theorem initRunners_run (r : Nat) (s : State) (m j : Nat) :
    (initRunners r s m).run j =
      if j < m then ⟨j * (NUM_LEDS / r), s.rng (s.rngIdx + j) % 2⟩ else s.run j := by
  induction m with
  | zero => simp [initRunners]
  | succ m ih =>
    simp only [initRunners, initRunners_rng, initRunners_rngIdx]
    by_cases hj : j = m
    · subst hj
      rw [upd_same, if_pos (by omega)]
    · rw [upd_ne _ _ _ _ hj, ih]
      by_cases hlt : j < m
      · rw [if_pos hlt, if_pos (by omega)]
      · rw [if_neg hlt, if_neg (by omega)]

theorem initPos_lt {N i : Nat} (hN1 : 1 ≤ N) (hN : N ≤ NUM_LEDS) (hi : i < N) :
    i * (NUM_LEDS / N) < NUM_LEDS := by
  have hdiv1 : 1 ≤ NUM_LEDS / N := (Nat.one_le_div_iff (by omega)).mpr hN
  have hmul : NUM_LEDS / N * N ≤ NUM_LEDS := Nat.div_mul_le_self _ _
  have hle : i * (NUM_LEDS / N) ≤ (N - 1) * (NUM_LEDS / N) :=
    Nat.mul_le_mul_right _ (by omega)
  have heq : (N - 1) * (NUM_LEDS / N) = N * (NUM_LEDS / N) - NUM_LEDS / N := by
    rw [Nat.sub_mul, Nat.one_mul]
  have hc : N * (NUM_LEDS / N) = NUM_LEDS / N * N := Nat.mul_comm _ _
  unfold NUM_LEDS at *
  omega

/-- `startLightsRunning` establishes the running-lights invariant. -/
theorem inv6_start {N : Nat} (dur : Nat) (s : State) (hN1 : 1 ≤ N) (hN : N ≤ NUM_LEDS) :
    Inv6 N (startLightsRunning dur N s) := by
  unfold startLightsRunning
  have key : Inv6 N
      { initRunners N (tStop (allOffF (setBrightnessF (randomColor s)))) N with
        numRunners := N } := by
    refine ⟨rfl, ?_, ?_⟩
    · intro i hi
      show ((initRunners N _ N).run i).pos < NUM_LEDS
      rw [initRunners_run, if_pos hi]
      exact initPos_lt hN1 hN hi
    · intro p hp
      left
      show (initRunners N _ N).leds p = black
      rw [initRunners_leds]
      show (if p < NUM_LEDS then black else (setBrightnessF (randomColor s)).leds p) = black
      rw [if_pos hp]
  have h2 := inv6_tick key
  obtain ⟨a1, a2, a3⟩ := h2
  exact ⟨a1, a2, a3⟩

/-! ## Transport-buffer neutrality

No firmware operation except the three `ble_read` calls of a decode
iteration touches the receive buffer. -/

@[simp] theorem randomColor_inbox (s : State) : (randomColor s).inbox = s.inbox := by
  simp only [randomColor]
  split <;> rfl

@[simp] theorem randomColor_rng (s : State) : (randomColor s).rng = s.rng := by
  simp only [randomColor]
  split <;> rfl

@[simp] theorem randomColor_rngIdx (s : State) : (randomColor s).rngIdx = s.rngIdx + 1 := by
  simp only [randomColor]
  split <;> rfl

@[simp] theorem runLoop_inbox (s : State) (m : Nat) : (runLoop s m).inbox = s.inbox := by
  induction m with
  | zero => rfl
  | succ m ih => simp [runLoop, runStep, ih]

@[simp] theorem initRunners_inbox (r : Nat) (s : State) (m : Nat) :
    (initRunners r s m).inbox = s.inbox := by
  induction m with
  | zero => rfl
  | succ m ih => simp [initRunners, ih]

@[simp] theorem lightsFlashingTick_inbox (s : State) :
    (lightsFlashingTick s).inbox = s.inbox := by
  unfold lightsFlashingTick lightsOnF allOffF
  split <;> rfl

@[simp] theorem lightsBroadwayTick_inbox (s : State) :
    (lightsBroadwayTick s).inbox = s.inbox := by
  unfold lightsBroadwayTick lightsOddEvenF
  split <;> rfl

@[simp] theorem startFire_inbox (s : State) : (startFire s).inbox = s.inbox := by
  simp [startFire, tEvery, fire2012Tick, tStop, allOffF, setBrightnessF]

@[simp] theorem startLightsFlashing_inbox (dur : Nat) (s : State) :
    (startLightsFlashing dur s).inbox = s.inbox := by
  simp [startLightsFlashing, tEvery, tStop, allOffF, setBrightnessF]

@[simp] theorem startLightsBroadway_inbox (dur : Nat) (s : State) :
    (startLightsBroadway dur s).inbox = s.inbox := by
  simp [startLightsBroadway, tEvery, tStop, allOffF, setBrightnessF]

@[simp] theorem startLightsRunning_inbox (dur r : Nat) (s : State) :
    (startLightsRunning dur r s).inbox = s.inbox := by
  simp [startLightsRunning, lightsRunningTick, tEvery, tStop, allOffF, setBrightnessF]

@[simp] theorem startPaletteShow_inbox (s : State) :
    (startPaletteShow s).inbox = s.inbox := by
  simp [startPaletteShow, paletteShowTick, tEvery, tStop, allOffF]

@[simp] theorem startRainbowShow_inbox (s : State) :
    (startRainbowShow s).inbox = s.inbox := by
  simp [startRainbowShow, rainbowShowTick, tEvery, tStop, allOffF]

@[simp] theorem lightShowTick_inbox (s : State) :
    (lightShowTick s).inbox = s.inbox := by
  simp only [lightShowTick]
  split <;> simp

@[simp] theorem startLightsShow_inbox (s : State) :
    (startLightsShow s).inbox = s.inbox := by
  simp [startLightsShow, t2Every, t2Stop, allOffF, setBrightnessF]

theorem playCmd_inbox (d1 : Nat) (s : State) : (playCmd d1 s).inbox = s.inbox := by
  simp only [playCmd]
  split
  all_goals try rfl
  all_goals try simp
  split <;> rfl

theorem decodeFrame_inbox (d0 d1 d2 : Nat) (s : State) :
    (decodeFrame d0 d1 d2 s).inbox = s.inbox := by
  simp only [decodeFrame]
  split
  all_goals try rfl
  · split
    · rfl
    · exact playCmd_inbox d1 s
    · rfl
  · split <;> rfl

/-! ## Congruence of the fire tick in the on-strip heat cells

The tick only ever reads heat cells below `NUM_LEDS`, so two buffers that
agree on the strip produce the same on-strip result. -/

theorem coolStep_congr (d h1 h2 : Nat → Nat)
    (he : ∀ i, i < NUM_LEDS → h1 i = h2 i) :
    ∀ i, i < NUM_LEDS → coolStep d h1 i = coolStep d h2 i := by
  intro i hi
  simp only [coolStep, if_pos hi, qsub8, he i hi]

theorem fireTickHeat_congr (d h1 h2 : Nat → Nat)
    (he : ∀ i, i < NUM_LEDS → h1 i = h2 i) :
    ∀ i, i < NUM_LEDS → fireTickHeat d h1 i = fireTickHeat d h2 i := by
  have hdiff : ∀ j, j < NUM_LEDS →
      diffuseFrom (coolStep d h1) (NUM_LEDS - 1) j =
      diffuseFrom (coolStep d h2) (NUM_LEDS - 1) j := by
    intro j hj
    rw [diffuseFrom_eq, diffuseFrom_eq]
    split
    · rename_i hc
      rw [coolStep_congr d h1 h2 he (j - 1) (by omega),
          coolStep_congr d h1 h2 he (j - 2) (by omega)]
    · exact coolStep_congr d h1 h2 he j hj
  intro i hi
  have hy : rand8lim (d 101) 7 < NUM_LEDS := by
    have := rand8lim_lt (d 101) 7 (by omega)
    unfold NUM_LEDS
    omega
  simp only [fireTickHeat, sparkStep]
  split
  · by_cases hiy : i = rand8lim (d 101) 7
    · rw [hiy, upd_same, upd_same, hdiff _ hy]
    · rw [upd_ne _ _ _ _ hiy, upd_ne _ _ _ _ hiy]
      exact hdiff i hi
  · exact hdiff i hi

/-- The heat buffer produced by `startFire`: one tick on a zeroed buffer,
regardless of the previous heat. -/
theorem startFire_heat (s : State) :
    (startFire s).heat = fireTickHeat (fun n => s.rng8 (s.rng8Idx + n))
      (fun j => if j < NUM_LEDS then 0 else s.heat j) := rfl

/-- The runner array produced by `startLightsRunning`: runner `j < N` is
freshly initialized (position `j * (NUM_LEDS / N)`, random direction) and
advanced one tick, regardless of the previous runner state. -/
theorem startLightsRunning_run (dur N : Nat) (s : State) (j : Nat) (hj : j < N) :
    (startLightsRunning dur N s).run j =
      moveRunner ⟨j * (NUM_LEDS / N), s.rng (s.rngIdx + 1 + j) % 2⟩ := by
  show (runLoop
      { initRunners N (tStop (allOffF (setBrightnessF (randomColor s)))) N with
        numRunners := N } N).run j = _
  rw [runLoop_run, if_pos hj]
  congr 1
  show (initRunners N (tStop (allOffF (setBrightnessF (randomColor s)))) N).run j = _
  rw [initRunners_run, if_pos hj]
  have e1 : (tStop (allOffF (setBrightnessF (randomColor s)))).rng = s.rng := by
    simp [tStop, allOffF, setBrightnessF]
  have e2 : (tStop (allOffF (setBrightnessF (randomColor s)))).rngIdx = s.rngIdx + 1 := by
    simp [tStop, allOffF, setBrightnessF]
  rw [e1, e2, Nat.add_assoc]

theorem ticksRun_inv6 (n : Nat) {N : Nat} (s : State) (h : Inv6 N s) :
    Inv6 N (ticksRun n s) := by
  induction n generalizing s with
  | zero => exact h
  | succ n ih => exact ih _ (inv6_tick h)

theorem startEffect_inv {s : State} (c : EffectCmd) (h : TInv s) :
    (startEffect c s).tJobs = [⟨s.tNextId, cmdPeriod c, cmdFn c⟩] ∧
    TInv (startEffect c s) := by
  cases c with
  | fireE => exact startFire_inv h
  | paletteE => exact startPaletteShow_inv h
  | rainbowE => exact startRainbowShow_inv h
  | flashingE d => exact startLightsFlashing_inv d h
  | broadwayE d => exact startLightsBroadway_inv d h
  | runningE d n => exact startLightsRunning_inv d n h

/-! ## Claim theorems -/

/-- Claim C1 (code bug): the mode table's case 4 is an empty branch.  A
set-mode frame `[0x02, _, 0x04]` followed by a play frame `[0x01, _, 0x01]`
leaves the machine state completely unchanged beyond the stored mode — in
particular `startFire` is never invoked, although the branch's own comment
reads `// Fire simulation` and every other mode performs its table action. -/
theorem fire_mode_play_noop (s : State) (d1 d1a : Nat) :
    (decodeFrame 2 d1 4 s).mode = 4 ∧
    decodeFrame 1 d1a 1 (decodeFrame 2 d1 4 s) = decodeFrame 2 d1 4 s :=
  ⟨rfl, rfl⟩

/-- Claim C2 counterexample: on the buffer `heatDemo = [3, 0, 0, ...]` the
diffusion loop writes `(heat[1] + heat[0] + heat[0]) / 3 = (0 + 3 + 3) / 3 = 2`
into cell 2, while the claimed "average of itself and the two cells below"
is `(heat[2] + heat[1] + heat[0]) / 3 = (0 + 0 + 3) / 3 = 1`. -/
theorem diffusion_cex :
    diffuseFrom heatDemo (NUM_LEDS - 1) 2 ≠ (heatDemo 2 + heatDemo 1 + heatDemo 0) / 3 := by
  decide

/-- Claim C2 (amended): scanning from the far end toward the origin, the
diffusion step replaces each cell `2 ≤ k ≤ NUM_LEDS-1` with the average of
the cell below and the cell two below counted twice — each read seeing the
pre-diffusion value — and leaves cells 0 and 1 unchanged. -/
theorem diffusion_formula (h : Nat → Nat) (j : Nat) :
    diffuseFrom h (NUM_LEDS - 1) j =
      if 2 ≤ j ∧ j ≤ NUM_LEDS - 1 then (h (j - 1) + h (j - 2) + h (j - 2)) / 3 else h j :=
  diffuseFrom_eq (NUM_LEDS - 1) h j

/-- Claim C3 counterexample: with the fire effect already running on a hot
buffer (`fireRunState`, all on-strip cells at 200), calling `startFire`
does not preserve the heat buffer: the synchronous tick it performs runs on
a zeroed buffer (cell 50 comes out 0), not on the preserved one (cell 50
would come out 200). -/
theorem startFire_reset_cex :
    (startFire fireRunState).heat 50 ≠
      fireTickHeat (fun n => fireRunState.rng8 (fireRunState.rng8Idx + n))
        fireRunState.heat 50 := by
  decide

/-- Claim C3 (amended): every start resets the effect's persistent state
unconditionally, also when the same effect is already running: the heat
buffer after `startFire` is independent of the prior heat buffer, and every
runner after `startLightsRunning` is independent of the prior runner
array. -/
theorem start_always_resets (s : State) (hp : Nat → Nat) (rr : Nat → Runner)
    (dur N i j : Nat) (hi : i < NUM_LEDS) (hj : j < N) :
    (startFire { s with heat := hp }).heat i = (startFire s).heat i ∧
    (startLightsRunning dur N { s with run := rr }).run j =
      (startLightsRunning dur N s).run j := by
  constructor
  · rw [startFire_heat, startFire_heat]
    exact fireTickHeat_congr _ _ _ (fun k hk => by rw [if_pos hk, if_pos hk]) i hi
  · rw [startLightsRunning_run dur N _ j hj, startLightsRunning_run dur N s j hj]

theorem start_always_resets_witness :
    0 < NUM_LEDS ∧ 0 < 1 ∧
    ((startFire { baseState with heat := fun _ => 7 }).heat 0 =
       (startFire baseState).heat 0 ∧
     (startLightsRunning 200 1 { baseState with run := fun _ => ⟨3, 0⟩ }).run 0 =
       (startLightsRunning 200 1 baseState).run 0) :=
  ⟨by decide, by decide,
   start_always_resets baseState (fun _ => 7) (fun _ => ⟨3, 0⟩) 200 1 0 0
     (by decide) (by decide)⟩

/-- Claim C4 counterexample: with a single byte buffered (fewer than 3),
the guarded decode iteration does consume bytes — the claim that it waits
and consumes nothing is false. -/
theorem partial_frame_cex :
    oneByteState.inbox.length < 3 ∧
    (bleLoopIter oneByteState).inbox ≠ oneByteState.inbox := by
  constructor
  · decide
  · decide

/-- Claim C4 (amended): the decoder waits only when zero bytes are
available (`ble_available()` false); whenever at least one byte is buffered
the iteration performs its three reads unconditionally, draining a partial
frame (1 or 2 bytes) completely. -/
theorem decoder_framing (s : State) :
    (s.inbox = [] → bleLoopIter s = s) ∧
    (s.inbox ≠ [] → s.inbox.length < 3 → (bleLoopIter s).inbox = []) := by
  constructor
  · intro h
    unfold bleLoopIter
    rw [if_pos h]
  · intro h1 h2
    unfold bleLoopIter
    rw [if_neg h1]
    unfold decodeStep bleRead
    rcases hL : s.inbox with _ | ⟨a, _ | ⟨b, _ | ⟨c, rest⟩⟩⟩
    · exact absurd hL h1
    · simp only [decodeFrame_inbox]
    · simp only [decodeFrame_inbox]
    · exfalso
      rw [hL] at h2
      simp only [List.length_cons] at h2
      omega

theorem decoder_framing_witness :
    oneByteState.inbox ≠ [] ∧ oneByteState.inbox.length < 3 ∧
    (bleLoopIter oneByteState).inbox = [] :=
  ⟨by decide, by decide, (decoder_framing oneByteState).2 (by decide) (by decide)⟩

/-- Claim C5: starting from any heat buffer whose on-strip cells are in
[0,255] and under any randomness source, every cell stays in [0,255] for
(at least) 10,000 fire ticks: the cooling `qsub8` saturates at 0, the
diffusion average of byte values stays below 256, and the spark `qadd8`
saturates at 255, so the byte stores never wrap.  (Heat is modelled in
`Nat`, so non-negativity holds by construction.) -/
theorem fire_heat_bounded (d : Nat → Nat → Nat) (h : Nat → Nat)
    (hb : ∀ i, i < NUM_LEDS → h i ≤ 255) (n : Nat) (_hn : n ≤ 10000) :
    ∀ i, i < NUM_LEDS → fireTicks d n h i ≤ 255 :=
  fireTicks_bound d n h hb

theorem fire_heat_bounded_witness :
    (∀ i, i < NUM_LEDS → (fun _ : Nat => 0) i ≤ 255) ∧ (2 : Nat) ≤ 10000 ∧
    (∀ i, i < NUM_LEDS → fireTicks (fun _ _ => 0) 2 (fun _ => 0) i ≤ 255) :=
  ⟨by decide, by decide,
   fire_heat_bounded (fun _ _ => 0) (fun _ => 0) (by decide) 2 (by decide)⟩

/-- Claim C6 counterexample: two runners started at 0 (going up) and 50
(going down); after the start tick plus 24 ticks both sit on pixel 25, so
only one pixel — not `N = 2` — shows the active color. -/
theorem running_exactN_cex :
    runDemoEnd.numRunners = 2 ∧ litCount runDemoEnd = 1 := by
  have hsc : runDemoEnd.setColor = ⟨255, 127, 80⟩ := by decide
  have hlit : runDemoEnd.leds 25 = ⟨255, 127, 80⟩ := by decide
  have hpos0 : (runDemoEnd.run 0).pos = 25 := by decide
  have hpos1 : (runDemoEnd.run 1).pos = 25 := by decide
  have hinv : Inv6 2 runDemoEnd :=
    ticksRun_inv6 24 _ (inv6_start 200 runDemoState (by omega) (by unfold NUM_LEDS; omega))
  have hnot : ∀ p, p < NUM_LEDS → p ≠ 25 →
      ¬ (runDemoEnd.leds p = runDemoEnd.setColor) := by
    intro p hp hne hcontra
    rcases hinv.2.2 p hp with hb | ⟨hc, i, hi, hip⟩
    · rw [hcontra, hsc] at hb
      exact absurd hb (by decide)
    · interval_cases i
      · rw [hpos0] at hip
        exact hne hip.symm
      · rw [hpos1] at hip
        exact hne hip.symm
  constructor
  · decide
  · have hfil : (List.range NUM_LEDS).filter
        (fun p => decide (runDemoEnd.leds p = runDemoEnd.setColor)) =
        (List.range NUM_LEDS).filter (fun p => decide (p = 25)) := by
      apply List.filter_congr
      intro x hx
      rw [List.mem_range] at hx
      by_cases hx25 : x = 25
      · subst hx25
        rw [hlit, hsc]
        decide
      · rw [decide_eq_false (hnot x hx hx25), decide_eq_false hx25]
    unfold litCount
    rw [hfil]
    decide

/-- Claim C6 (amended): for `1 ≤ N ≤ 6` runners, after `startLightsRunning`
and any number of further ticks every runner position lies in
`[0, NUM_LEDS)`, and every pixel showing a non-black color is the active
color at some runner's current position — hence at most `N` pixels show
the active color (collisions can make it fewer than `N`). -/
theorem running_invariant (s : State) (dur N n : Nat) (h1 : 1 ≤ N) (h6 : N ≤ 6) :
    (∀ i, i < N → ((ticksRun n (startLightsRunning dur N s)).run i).pos < NUM_LEDS) ∧
    (∀ p, p < NUM_LEDS →
      (ticksRun n (startLightsRunning dur N s)).leds p ≠ black →
      ∃ i, i < N ∧ ((ticksRun n (startLightsRunning dur N s)).run i).pos = p) := by
  have hinv : Inv6 N (ticksRun n (startLightsRunning dur N s)) :=
    ticksRun_inv6 n _ (inv6_start dur s h1 (by unfold NUM_LEDS; omega))
  obtain ⟨hN, hpos, hleds⟩ := hinv
  refine ⟨hpos, ?_⟩
  intro p hp hnb
  rcases hleds p hp with hb | ⟨hc, i, hi, hip⟩
  · exact absurd hb hnb
  · exact ⟨i, hi, hip⟩

theorem running_invariant_witness :
    (1 : Nat) ≤ 1 ∧ (1 : Nat) ≤ 6 ∧
    ((∀ i, i < 1 →
        ((ticksRun 0 (startLightsRunning 200 1 baseState)).run i).pos < NUM_LEDS) ∧
     (∀ p, p < NUM_LEDS →
        (ticksRun 0 (startLightsRunning 200 1 baseState)).leds p ≠ black →
        ∃ i, i < 1 ∧ ((ticksRun 0 (startLightsRunning 200 1 baseState)).run i).pos = p)) :=
  ⟨by decide, by decide, running_invariant baseState 200 1 0 (by decide) (by decide)⟩

/-- Claim C7: starting effect A and then immediately effect B leaves timer
`t` holding exactly one job, bound to B's tick and period (so no tick of
A's job can ever fire again), and in every state reachable from the
firmware's `setup()` there is at most one effect job and at most one
sequence job. -/
theorem scheduler_one_job :
    (∀ (A B : EffectCmd) (s : State), TInv s →
      (startEffect B (startEffect A s)).tJobs =
        [⟨(startEffect A s).tNextId, cmdPeriod B, cmdFn B⟩] ∧
      TInv (startEffect B (startEffect A s))) ∧
    (∀ (f g : Nat → Nat) (s1 : State),
      Relation.ReflTransGen MachineStep
        (setupState { baseState with rng := f, rng8 := g }) s1 →
      s1.tJobs.length ≤ 1 ∧ s1.t2Jobs.length ≤ 1) := by
  constructor
  · intro A B s h
    have h1 := (startEffect_inv A h).2
    exact ⟨(startEffect_inv B h1).1, (startEffect_inv B h1).2⟩
  · intro f g s1 hr
    have h0 : TInv { baseState with rng := f, rng8 := g } := by
      refine ⟨?_, ?_, ?_, ?_⟩ <;> simp [baseState]
    have h1 : TInv (setupState { baseState with rng := f, rng8 := g }) := by
      unfold setupState
      exact startLightsShow_inv (TInv_congr h0 rfl rfl rfl rfl)
    have h2 := reachable_inv hr h1
    exact ⟨h2.2.1, h2.2.2.2⟩

theorem scheduler_one_job_witness :
    TInv baseState ∧
    ((startEffect EffectCmd.fireE (startEffect EffectCmd.paletteE baseState)).tJobs =
       [⟨(startEffect EffectCmd.paletteE baseState).tNextId, cmdPeriod EffectCmd.fireE,
         cmdFn EffectCmd.fireE⟩] ∧
     TInv (startEffect EffectCmd.fireE (startEffect EffectCmd.paletteE baseState))) ∧
    ((setupState { baseState with rng := fun _ => 0, rng8 := fun _ => 0 }).tJobs.length ≤ 1 ∧
     (setupState { baseState with rng := fun _ => 0, rng8 := fun _ => 0 }).t2Jobs.length ≤ 1) :=
  ⟨by decide, scheduler_one_job.1 EffectCmd.paletteE EffectCmd.fireE baseState (by decide),
   scheduler_one_job.2 (fun _ => 0) (fun _ => 0) _ Relation.ReflTransGen.refl⟩

/-- Claim C8: decoding `[0x02, 0x00, 0x05]` (mode := 5) and then
`[0x01, 0x00, 0x01]` (play) leaves the scheduler holding exactly the
broadway job with a 200 ms period. -/
theorem broadway_sequence (s : State) (h : TInv s) :
    ∃ i, (decodeFrame 1 0 1 (decodeFrame 2 0 5 s)).tJobs =
      [⟨i, 200, TickFn.lightsBroadway⟩] := by
  have e : decodeFrame 1 0 1 (decodeFrame 2 0 5 s) =
      startLightsBroadway 200 { s with mode := 5 } := rfl
  rw [e]
  have h5 : TInv ({ s with mode := 5 } : State) := TInv_congr h rfl rfl rfl rfl
  exact ⟨_, (startLightsBroadway_inv 200 h5).1⟩

theorem broadway_sequence_witness :
    TInv baseState ∧
    ∃ i, (decodeFrame 1 0 1 (decodeFrame 2 0 5 baseState)).tJobs =
      [⟨i, 200, TickFn.lightsBroadway⟩] :=
  ⟨by decide, broadway_sequence baseState (by decide)⟩

/-- Claim C9: a select-active-color frame with index above 5 falls into the
switch default, cancelling the effect job and blanking every pixel, while a
frame with an unknown opcode (≥ 0x11) leaves the state exactly unchanged. -/
theorem select_invalid_blanks (s : State) (d1 d2 : Nat) (h : TInv s) (hd : 6 ≤ d2) :
    ((decodeFrame 16 d1 d2 s).tJobs = [] ∧
      ∀ p, p < NUM_LEDS → (decodeFrame 16 d1 d2 s).leds p = black) ∧
    (∀ op e1 e2, 17 ≤ op → decodeFrame op e1 e2 s = s) := by
  obtain ⟨k, rfl⟩ : ∃ k, d2 = k + 6 := ⟨d2 - 6, by omega⟩
  constructor
  · constructor
    · show (allOffF (stopTimerF s)).tJobs = []
      exact (stopTimerF_inv h).1
    · intro p hp
      show (if p < NUM_LEDS then black else (stopTimerF s).leds p) = black
      rw [if_pos hp]
  · intro op e1 e2 hop
    obtain ⟨m, rfl⟩ : ∃ m, op = m + 17 := ⟨op - 17, by omega⟩
    rfl

theorem select_invalid_blanks_witness :
    TInv baseState ∧ (6 : Nat) ≤ 6 ∧
    (((decodeFrame 16 0 6 baseState).tJobs = [] ∧
       ∀ p, p < NUM_LEDS → (decodeFrame 16 0 6 baseState).leds p = black) ∧
     (∀ op e1 e2, 17 ≤ op → decodeFrame op e1 e2 baseState = baseState)) :=
  ⟨by decide, by decide, select_invalid_blanks baseState 0 6 (by decide) (by decide)⟩

/-- Claim C10: opcode 0x10 copies the selected color's current value into
`setColor`; any later color-mutating frame (opcodes 0x03-0x0e) leaves
`setColor` unchanged — it is a copy, not a reference. -/
theorem select_color_copies (s : State) (i d1 e1 e2 op : Nat) (hi : i ≤ 5)
    (hop1 : 3 ≤ op) (hop2 : op ≤ 14) :
    (decodeFrame op e1 e2 (decodeFrame 16 d1 i s)).setColor =
      (decodeFrame 16 d1 i s).setColor ∧
    (decodeFrame 16 d1 i s).setColor = selColor i s := by
  interval_cases i <;> interval_cases op <;> exact ⟨rfl, rfl⟩

theorem select_color_copies_witness :
    (0 : Nat) ≤ 5 ∧ (3 : Nat) ≤ 3 ∧ (3 : Nat) ≤ 14 ∧
    ((decodeFrame 3 7 9 (decodeFrame 16 0 0 baseState)).setColor =
       (decodeFrame 16 0 0 baseState).setColor ∧
     (decodeFrame 16 0 0 baseState).setColor = selColor 0 baseState) :=
  ⟨by decide, by decide, by decide,
   select_color_copies baseState 0 0 7 9 3 (by decide) (by decide) (by decide)⟩

end Cauldron
